import Mathlib

/-!
# Verification of the tiered incentive calculator (`IncentiveOverview.tsx`)

This file shallowly embeds `calculateUserIncentive` from
`src/components/IncentiveOverview.tsx` and proves properties of it.

Numbers are modelled as rationals (`ℚ`).  JavaScript `x || y` on numbers
yields `y` when `x` is `0` (falsy) or `undefined`; those fallbacks are made
explicit below.  Division in `ℚ` returns `0` on a zero denominator; the
source would produce an IEEE infinity there, a corner none of the theorems
below depend on.
-/

namespace Dsh15

/-- A tier of an incentive rule (fields used by the calculator). -/
structure Tier where
  revenue_threshold : ℚ
  incentive_rate : ℚ
deriving DecidableEq

/-- An incentive rule (fields used by the calculator). -/
structure IncentiveRule where
  name : String
  is_active : Bool
  commission_rate_min : ℚ
  commission_rate_max : ℚ
  min_commission_threshold : ℚ
  base_revenue_threshold : ℚ
  tiers : List Tier
deriving DecidableEq

/-- An account (the calculator only reads `id` and the list length). -/
structure Account where
  id : String
deriving DecidableEq

/-- One sales record (fields used by the calculator). -/
structure SalesData where
  account_id : String
  total_purchases : ℚ
  gross_commission : ℚ
deriving DecidableEq

/-- The calculator's output record. -/
structure IncentiveCalculation where
  user_id : String
  user_name : String
  total_revenue : ℚ
  total_commission : ℚ
  commission_rate : ℚ
  applicable_rule : Option IncentiveRule
  current_tier : Option Tier
  next_tier : Option Tier
  incentive_amount : ℚ
  progress_percentage : ℚ
  remaining_to_next_tier : ℚ
  managed_accounts_count : ℕ
deriving DecidableEq

/-- `allSalesData.filter(data => userAccounts.some(acc => acc.id === data.account_id))`
(source line 67). -/
def userSalesOf (userAccounts : List Account) (allSalesData : List SalesData) :
    List SalesData :=
  allSalesData.filter fun data => userAccounts.any fun acc => acc.id == data.account_id

/-- `reduce((sum, data) => sum + data.total_purchases, 0)` (source line 72). -/
def sumPurchases (rows : List SalesData) : ℚ :=
  (rows.map (·.total_purchases)).sum

/-- `reduce((sum, data) => sum + data.gross_commission, 0)` (source line 73). -/
def sumCommission (rows : List SalesData) : ℚ :=
  (rows.map (·.gross_commission)).sum

/-- `totalRevenue > 0 ? (totalCommission / totalRevenue) * 100 : 0` (source line 74). -/
def commissionRateOf (totalRevenue totalCommission : ℚ) : ℚ :=
  if 0 < totalRevenue then totalCommission / totalRevenue * 100 else 0

/-- The rule-matching test of the selection loop (source lines 79-80):
`commissionRate >= rule.commission_rate_min &&
 (rule.commission_rate_max === 100 || commissionRate <= rule.commission_rate_max)`. -/
def ruleMatches (commissionRate : ℚ) (rule : IncentiveRule) : Bool :=
  decide (rule.commission_rate_min ≤ commissionRate) &&
    (decide (rule.commission_rate_max = 100) ||
      decide (commissionRate ≤ rule.commission_rate_max))

/-- The qualifying-account set (source lines 105-113): an account's id is added
iff the summed `gross_commission` of its rows among the user's sales meets
`min_commission_threshold`. -/
def qualifyingAccountIds (userAccounts : List Account)
    (userSalesData : List SalesData) (bestRule : IncentiveRule) : List String :=
  (userAccounts.filter fun account =>
      decide (bestRule.min_commission_threshold ≤
        sumCommission (userSalesData.filter fun data =>
          data.account_id == account.id))).map (·.id)

/-- Revenue from qualifying accounts only (source lines 116-118). -/
def qualifyingRevenueOf (userSalesData : List SalesData)
    (qualifyingIds : List String) : ℚ :=
  sumPurchases (userSalesData.filter fun data =>
    qualifyingIds.contains data.account_id)

/-- The comparator of `sort((a, b) => a.revenue_threshold - b.revenue_threshold)`
(source line 125). -/
def tierLe (a b : Tier) : Bool :=
  decide (a.revenue_threshold ≤ b.revenue_threshold)

/-- `[...bestRule.tiers].sort((a, b) => a.revenue_threshold - b.revenue_threshold)`
(source line 125); JS `Array.prototype.sort` is stable, as is `mergeSort`. -/
def sortTiers (tiers : List Tier) : List Tier :=
  tiers.mergeSort tierLe

/-- The accrual loop (source lines 127-142) with the accumulator and the
`currentTier` variable made explicit.  `sortedTiers[i + 1]?.revenue_threshold
|| qualifyingRevenue` reads: the next tier's threshold, unless there is no
next tier or that threshold is `0` (JS falsy), in which case
`qualifyingRevenue`. -/
def tierWalkAux : List Tier → ℚ → ℚ → Option Tier → ℚ × Option Tier × Option Tier
  | [], _, acc, cur => (acc, cur, none)
  | tier :: rest, qR, acc, cur =>
    if tier.revenue_threshold ≤ qR then
      let nextThreshold :=
        match rest with
        | [] => qR
        | b :: _ => if b.revenue_threshold = 0 then qR else b.revenue_threshold
      tierWalkAux rest qR
        (acc + (min qR nextThreshold - tier.revenue_threshold) *
          (tier.incentive_rate / 100))
        (some tier)
    else (acc, cur, some tier)

/-- The accrual loop started from `incentiveAmount = 0`, `currentTier = null`
(source lines 121-142).  Returns `(incentiveAmount, currentTier, nextTier)`. -/
def tierWalk (sortedTiers : List Tier) (qualifyingRevenue : ℚ) :
    ℚ × Option Tier × Option Tier :=
  tierWalkAux sortedTiers qualifyingRevenue 0 none

/-- Progress toward the next tier (source lines 144-158).  Returns
`(progressPercentage, remainingToNextTier)`.  `currentTier?.revenue_threshold
|| bestRule.base_revenue_threshold` reads: the current tier's threshold,
unless there is no current tier or that threshold is `0` (JS falsy), in which
case `base_revenue_threshold`. -/
def calcProgress (bestRule : IncentiveRule) (qualifyingRevenue : ℚ)
    (currentTier nextTier : Option Tier) : ℚ × ℚ :=
  match nextTier with
  | some nt =>
    let currentThreshold :=
      match currentTier with
      | some ct =>
        if ct.revenue_threshold = 0 then bestRule.base_revenue_threshold
        else ct.revenue_threshold
      | none => bestRule.base_revenue_threshold
    let nextThreshold := nt.revenue_threshold
    let progress := qualifyingRevenue - currentThreshold
    let totalNeeded := nextThreshold - currentThreshold
    (min (progress / totalNeeded * 100) 100,
      max (nextThreshold - qualifyingRevenue) 0)
  | none =>
    match currentTier with
    | some _ => (100, 0)
    | none => (0, 0)

/-- `calculateUserIncentive` (source lines 54-174).  `getUserName` is the
surrounding component's name-resolution closure, passed as a parameter. -/
def calculateUserIncentive (getUserName : String → String) (userId : String)
    (userAccounts : List Account) (allSalesData : List SalesData)
    (rules : List IncentiveRule) : Option IncentiveCalculation :=
  if userAccounts.length = 0 then none
  else
    let applicableRules := rules.filter (·.is_active)
    if applicableRules.length = 0 then none
    else
      let userSalesData := userSalesOf userAccounts allSalesData
      let totalRevenue := sumPurchases userSalesData
      let totalCommission := sumCommission userSalesData
      let commissionRate := commissionRateOf totalRevenue totalCommission
      match applicableRules.find? (ruleMatches commissionRate) with
      | none =>
        some { user_id := userId
               user_name := getUserName userId
               total_revenue := totalRevenue
               total_commission := totalCommission
               commission_rate := commissionRate
               applicable_rule := none
               current_tier := none
               next_tier := none
               incentive_amount := 0
               progress_percentage := 0
               remaining_to_next_tier := 0
               managed_accounts_count := userAccounts.length }
      | some bestRule =>
        let qualifyingIds := qualifyingAccountIds userAccounts userSalesData bestRule
        let qualifyingRevenue := qualifyingRevenueOf userSalesData qualifyingIds
        let sortedTiers := sortTiers bestRule.tiers
        let walk := tierWalk sortedTiers qualifyingRevenue
        let progressOut := calcProgress bestRule qualifyingRevenue walk.2.1 walk.2.2
        some { user_id := userId
               user_name := getUserName userId
               total_revenue := totalRevenue
               total_commission := totalCommission
               commission_rate := commissionRate
               applicable_rule := some bestRule
               current_tier := walk.2.1
               next_tier := walk.2.2
               incentive_amount := walk.1
               progress_percentage := progressOut.1
               remaining_to_next_tier := progressOut.2
               managed_accounts_count := userAccounts.length }

/-- The spec's description of the accrual walk: walk the sorted tiers in
order; each tier whose threshold is at or below `qualifyingRevenue` accrues
`(min(qualifyingRevenue, next tier's threshold) - tier's threshold) *
incentive_rate / 100` (the cap is `qualifyingRevenue` itself for the last
tier); stop at the first tier whose threshold exceeds `qualifyingRevenue`. -/
def specTierSum : List Tier → ℚ → ℚ
  | [], _ => 0
  | tier :: rest, qR =>
    if tier.revenue_threshold ≤ qR then
      (min qR (match rest with | [] => qR | b :: _ => b.revenue_threshold)
          - tier.revenue_threshold) * (tier.incentive_rate / 100)
        + specTierSum rest qR
    else 0

/-! ## Helper lemmas about the accrual walk -/

lemma tierWalkAux_amount (qR : ℚ) :
    ∀ (L : List Tier) (acc : ℚ) (cur : Option Tier),
      (tierWalkAux L qR acc cur).1 = acc + (tierWalkAux L qR 0 none).1 := by
  intro L
  induction L with
  | nil => intro acc cur; simp [tierWalkAux]
  | cons t rest ih =>
    intro acc cur
    by_cases h : t.revenue_threshold ≤ qR
    · simp only [tierWalkAux, if_pos h]
      rw [ih, ih (0 + _) (some t)]
      ring
    · simp [tierWalkAux, if_neg h]

lemma tierWalkAux_next (qR : ℚ) :
    ∀ (L : List Tier) (acc : ℚ) (cur : Option Tier),
      (tierWalkAux L qR acc cur).2.2 = (tierWalkAux L qR 0 none).2.2 := by
  intro L
  induction L with
  | nil => intro acc cur; simp [tierWalkAux]
  | cons t rest ih =>
    intro acc cur
    by_cases h : t.revenue_threshold ≤ qR
    · simp only [tierWalkAux, if_pos h]
      rw [ih, ih (0 + _) (some t)]
    · simp [tierWalkAux, if_neg h]

lemma tierWalkAux_single (t : Tier) (qR acc : ℚ) (cur : Option Tier) :
    tierWalkAux [t] qR acc cur =
      if t.revenue_threshold ≤ qR then
        (acc + (min qR qR - t.revenue_threshold) * (t.incentive_rate / 100),
          some t, none)
      else (acc, cur, some t) := rfl

lemma tierWalkAux_cons_cons (t b : Tier) (rest' : List Tier) (qR acc : ℚ)
    (cur : Option Tier) :
    tierWalkAux (t :: b :: rest') qR acc cur =
      if t.revenue_threshold ≤ qR then
        tierWalkAux (b :: rest') qR
          (acc + (min qR (if b.revenue_threshold = 0 then qR else b.revenue_threshold)
              - t.revenue_threshold) * (t.incentive_rate / 100))
          (some t)
      else (acc, cur, some t) := rfl

lemma specTierSum_single (t : Tier) (qR : ℚ) :
    specTierSum [t] qR =
      if t.revenue_threshold ≤ qR then
        (min qR qR - t.revenue_threshold) * (t.incentive_rate / 100) + 0
      else 0 := rfl

lemma specTierSum_cons_cons (t b : Tier) (rest' : List Tier) (qR : ℚ) :
    specTierSum (t :: b :: rest') qR =
      if t.revenue_threshold ≤ qR then
        (min qR b.revenue_threshold - t.revenue_threshold) * (t.incentive_rate / 100)
          + specTierSum (b :: rest') qR
      else 0 := rfl

/-- On a strictly ascending, nonnegative tier list the `|| qualifyingRevenue`
falsy fallback never fires on a middle tier, so the walked amount is exactly
the spec's banded sum. -/
lemma tierWalk_amount_eq_specTierSum (qR : ℚ) :
    ∀ L : List Tier,
      L.Pairwise (fun a b => a.revenue_threshold < b.revenue_threshold) →
      (∀ t ∈ L, 0 ≤ t.revenue_threshold) →
      (tierWalk L qR).1 = specTierSum L qR := by
  intro L
  induction L with
  | nil => intro _ _; simp [tierWalk, tierWalkAux, specTierSum]
  | cons t rest ih =>
    intro hs hn
    by_cases h : t.revenue_threshold ≤ qR
    · have hrec := ih (List.pairwise_cons.mp hs).2
        (fun u hu => hn u (List.mem_cons_of_mem t hu))
      cases rest with
      | nil =>
        simp only [tierWalk, tierWalkAux_single, if_pos h, specTierSum_single]
        ring
      | cons b rest' =>
        have hb : t.revenue_threshold < b.revenue_threshold :=
          (List.pairwise_cons.mp hs).1 b (by simp)
        have ht : 0 ≤ t.revenue_threshold := hn t (by simp)
        have hb0 : b.revenue_threshold ≠ 0 := ne_of_gt (lt_of_le_of_lt ht hb)
        simp only [tierWalk] at hrec ⊢
        rw [tierWalkAux_cons_cons, if_pos h, if_neg hb0, tierWalkAux_amount, hrec,
          specTierSum_cons_cons, if_pos h]
        ring
    · simp [tierWalk, tierWalkAux, if_neg h, specTierSum]

/-- The walk's `nextTier` is the first tier whose threshold exceeds
`qualifyingRevenue`. -/
lemma tierWalk_next_eq_find (qR : ℚ) :
    ∀ L : List Tier,
      (tierWalk L qR).2.2 = L.find? fun t => decide (qR < t.revenue_threshold) := by
  intro L
  induction L with
  | nil => simp [tierWalk, tierWalkAux]
  | cons t rest ih =>
    by_cases h : t.revenue_threshold ≤ qR
    · have hnot : ¬ qR < t.revenue_threshold := not_lt.mpr h
      simp only [tierWalk, tierWalkAux, if_pos h]
      rw [tierWalkAux_next]
      simp only [tierWalk] at ih
      rw [ih, List.find?_cons_of_neg]
      simpa using hnot
    · have hlt : qR < t.revenue_threshold := not_le.mp h
      simp only [tierWalk, tierWalkAux, if_neg h]
      rw [List.find?_cons_of_pos]
      simpa using hlt

/-! ## Helper lemmas about the sort -/

lemma sortTiers_sorted (l : List Tier) :
    (sortTiers l).Pairwise fun a b => a.revenue_threshold ≤ b.revenue_threshold := by
  have h := @List.sorted_mergeSort Tier tierLe
    (fun a b c hab hbc => by
      simp only [tierLe, decide_eq_true_eq] at *; exact le_trans hab hbc)
    (fun a b => by
      simp only [tierLe, Bool.or_eq_true, decide_eq_true_eq]; exact le_total _ _)
    l
  exact h.imp fun hab => by simpa [tierLe] using hab

lemma sortTiers_perm (l : List Tier) : (sortTiers l).Perm l :=
  List.mergeSort_perm l tierLe

/-- With pairwise-distinct thresholds the sorted list is strictly sorted. -/
lemma sortTiers_pairwise_lt (l : List Tier)
    (hd : l.Pairwise fun a b => a.revenue_threshold ≠ b.revenue_threshold) :
    (sortTiers l).Pairwise fun a b => a.revenue_threshold < b.revenue_threshold := by
  have hd' := (List.Perm.pairwise_iff (fun hab => Ne.symm hab)
    (sortTiers_perm l)).mpr hd
  exact ((sortTiers_sorted l).and hd').imp fun hab => lt_of_le_of_ne hab.1 hab.2

/-- Sorting is insensitive to the supplied order when thresholds are
pairwise distinct: there is a unique strictly-sorted permutation. -/
lemma sortTiers_perm_congr (l₁ l₂ : List Tier) (hp : l₁.Perm l₂)
    (hd : l₁.Pairwise fun a b => a.revenue_threshold ≠ b.revenue_threshold) :
    sortTiers l₁ = sortTiers l₂ := by
  haveI : IsAntisymm Tier (fun a b => a.revenue_threshold < b.revenue_threshold) :=
    ⟨fun a b h1 h2 => ((lt_asymm h1) h2).elim⟩
  have hd₂ : l₂.Pairwise fun a b =>
      a.revenue_threshold ≠ b.revenue_threshold :=
    (List.Perm.pairwise_iff (fun hab => Ne.symm hab) hp).mp hd
  have hperm : (sortTiers l₁).Perm (sortTiers l₂) :=
    ((sortTiers_perm l₁).trans hp).trans (sortTiers_perm l₂).symm
  exact List.eq_of_perm_of_sorted hperm
    (sortTiers_pairwise_lt l₁ hd) (sortTiers_pairwise_lt l₂ hd₂)

/-- A strictly sorted list is left unchanged by the sort. -/
lemma sortTiers_eq_self (l : List Tier)
    (h : l.Pairwise fun a b => a.revenue_threshold < b.revenue_threshold) :
    sortTiers l = l := by
  haveI : IsAntisymm Tier (fun a b => a.revenue_threshold < b.revenue_threshold) :=
    ⟨fun a b h1 h2 => ((lt_asymm h1) h2).elim⟩
  have hd : l.Pairwise fun a b =>
      a.revenue_threshold ≠ b.revenue_threshold := h.imp fun hab => ne_of_lt hab
  exact List.eq_of_perm_of_sorted (sortTiers_perm l)
    (sortTiers_pairwise_lt l hd) h

/-! ## Branch characterizations of `calculateUserIncentive` -/

lemma calculateUserIncentive_of_find_none (g : String → String) (uid : String)
    (accs : List Account) (sd : List SalesData) (rules : List IncentiveRule)
    (h1 : accs ≠ []) (h2 : rules.filter (·.is_active) ≠ [])
    (hfind : (rules.filter (·.is_active)).find?
        (ruleMatches (commissionRateOf (sumPurchases (userSalesOf accs sd))
          (sumCommission (userSalesOf accs sd)))) = none) :
    calculateUserIncentive g uid accs sd rules =
      some { user_id := uid
             user_name := g uid
             total_revenue := sumPurchases (userSalesOf accs sd)
             total_commission := sumCommission (userSalesOf accs sd)
             commission_rate := commissionRateOf (sumPurchases (userSalesOf accs sd))
               (sumCommission (userSalesOf accs sd))
             applicable_rule := none
             current_tier := none
             next_tier := none
             incentive_amount := 0
             progress_percentage := 0
             remaining_to_next_tier := 0
             managed_accounts_count := accs.length } := by
  have h1' : ¬ accs.length = 0 := by simpa [List.length_eq_zero] using h1
  have h2' : ¬ (rules.filter (·.is_active)).length = 0 := by
    simpa [List.length_eq_zero] using h2
  simp only [calculateUserIncentive, if_neg h1', if_neg h2', hfind]

lemma calculateUserIncentive_of_find_some (g : String → String) (uid : String)
    (accs : List Account) (sd : List SalesData) (rules : List IncentiveRule)
    (bestRule : IncentiveRule)
    (h1 : accs ≠ []) (h2 : rules.filter (·.is_active) ≠ [])
    (hfind : (rules.filter (·.is_active)).find?
        (ruleMatches (commissionRateOf (sumPurchases (userSalesOf accs sd))
          (sumCommission (userSalesOf accs sd)))) = some bestRule) :
    calculateUserIncentive g uid accs sd rules =
      some { user_id := uid
             user_name := g uid
             total_revenue := sumPurchases (userSalesOf accs sd)
             total_commission := sumCommission (userSalesOf accs sd)
             commission_rate := commissionRateOf (sumPurchases (userSalesOf accs sd))
               (sumCommission (userSalesOf accs sd))
             applicable_rule := some bestRule
             current_tier :=
               (tierWalk (sortTiers bestRule.tiers)
                 (qualifyingRevenueOf (userSalesOf accs sd)
                   (qualifyingAccountIds accs (userSalesOf accs sd) bestRule))).2.1
             next_tier :=
               (tierWalk (sortTiers bestRule.tiers)
                 (qualifyingRevenueOf (userSalesOf accs sd)
                   (qualifyingAccountIds accs (userSalesOf accs sd) bestRule))).2.2
             incentive_amount :=
               (tierWalk (sortTiers bestRule.tiers)
                 (qualifyingRevenueOf (userSalesOf accs sd)
                   (qualifyingAccountIds accs (userSalesOf accs sd) bestRule))).1
             progress_percentage :=
               (calcProgress bestRule
                 (qualifyingRevenueOf (userSalesOf accs sd)
                   (qualifyingAccountIds accs (userSalesOf accs sd) bestRule))
                 (tierWalk (sortTiers bestRule.tiers)
                   (qualifyingRevenueOf (userSalesOf accs sd)
                     (qualifyingAccountIds accs (userSalesOf accs sd) bestRule))).2.1
                 (tierWalk (sortTiers bestRule.tiers)
                   (qualifyingRevenueOf (userSalesOf accs sd)
                     (qualifyingAccountIds accs (userSalesOf accs sd) bestRule))).2.2).1
             remaining_to_next_tier :=
               (calcProgress bestRule
                 (qualifyingRevenueOf (userSalesOf accs sd)
                   (qualifyingAccountIds accs (userSalesOf accs sd) bestRule))
                 (tierWalk (sortTiers bestRule.tiers)
                   (qualifyingRevenueOf (userSalesOf accs sd)
                     (qualifyingAccountIds accs (userSalesOf accs sd) bestRule))).2.1
                 (tierWalk (sortTiers bestRule.tiers)
                   (qualifyingRevenueOf (userSalesOf accs sd)
                     (qualifyingAccountIds accs (userSalesOf accs sd) bestRule))).2.2).2
             managed_accounts_count := accs.length } := by
  have h1' : ¬ accs.length = 0 := by simpa [List.length_eq_zero] using h1
  have h2' : ¬ (rules.filter (·.is_active)).length = 0 := by
    simpa [List.length_eq_zero] using h2
  simp only [calculateUserIncentive, if_neg h1', if_neg h2', hfind]

/-! ## Claim theorems -/

/-- C6: `calculateUserIncentive` returns `null` if and only if the user's
account list is empty or the list of active rules is empty; in every other
case it returns a non-null calculation. -/
theorem c6_returns_none_iff (g : String → String) (uid : String)
    (accs : List Account) (sd : List SalesData) (rules : List IncentiveRule) :
    calculateUserIncentive g uid accs sd rules = none ↔
      accs = [] ∨ rules.filter (·.is_active) = [] := by
  by_cases h1 : accs = []
  · have h1' : accs.length = 0 := by simp [h1]
    simp [calculateUserIncentive, h1', h1]
  · by_cases h2 : rules.filter (·.is_active) = []
    · have h1' : ¬ accs.length = 0 := by simpa [List.length_eq_zero] using h1
      have h2' : (rules.filter (·.is_active)).length = 0 := by simp [h2]
      simp [calculateUserIncentive, if_neg h1', h2', h2]
    · cases hfind : (rules.filter (·.is_active)).find?
          (ruleMatches (commissionRateOf (sumPurchases (userSalesOf accs sd))
            (sumCommission (userSalesOf accs sd)))) with
      | none =>
        rw [calculateUserIncentive_of_find_none g uid accs sd rules h1 h2 hfind]
        simp [h1, h2]
      | some r =>
        rw [calculateUserIncentive_of_find_some g uid accs sd rules r h1 h2 hfind]
        simp [h1, h2]

/-- C8: the commission rate of every produced calculation equals
`totalCommission / totalRevenue * 100` when `totalRevenue > 0` and `0` when
`totalRevenue = 0`; the division is guarded. -/
theorem c8_commission_rate_guarded (g : String → String) (uid : String)
    (accs : List Account) (sd : List SalesData) (rules : List IncentiveRule)
    (c : IncentiveCalculation)
    (h : calculateUserIncentive g uid accs sd rules = some c) :
    (0 < sumPurchases (userSalesOf accs sd) →
        c.commission_rate = sumCommission (userSalesOf accs sd) /
          sumPurchases (userSalesOf accs sd) * 100) ∧
      (sumPurchases (userSalesOf accs sd) = 0 → c.commission_rate = 0) := by
  have hrate : c.commission_rate =
      commissionRateOf (sumPurchases (userSalesOf accs sd))
        (sumCommission (userSalesOf accs sd)) := by
    by_cases h1 : accs = []
    · simp [calculateUserIncentive, show accs.length = 0 by simp [h1]] at h
    · by_cases h2 : rules.filter (·.is_active) = []
      · have h1' : ¬ accs.length = 0 := by simpa [List.length_eq_zero] using h1
        have h2' : (rules.filter (·.is_active)).length = 0 := by simp [h2]
        simp [calculateUserIncentive, if_neg h1', h2'] at h
      · cases hfind : (rules.filter (·.is_active)).find?
            (ruleMatches (commissionRateOf (sumPurchases (userSalesOf accs sd))
              (sumCommission (userSalesOf accs sd)))) with
        | none =>
          rw [calculateUserIncentive_of_find_none g uid accs sd rules h1 h2 hfind] at h
          cases Option.some.inj h
          rfl
        | some r =>
          rw [calculateUserIncentive_of_find_some g uid accs sd rules r h1 h2 hfind] at h
          cases Option.some.inj h
          rfl
  rw [hrate]
  unfold commissionRateOf
  constructor
  · intro hpos; rw [if_pos hpos]
  · intro hz; rw [hz]; simp

/-! Concrete fixtures used by witnesses and counterexamples. -/

/-- A single account with id `"a"`. -/
def acctA : Account := { id := "a" }

/-- An always-matching active rule (band `[0, 100]`, zero thresholds, no
tiers). -/
def ruleOpenNoTiers : IncentiveRule :=
  { name := "r", is_active := true, commission_rate_min := 0,
    commission_rate_max := 100, min_commission_threshold := 0,
    base_revenue_threshold := 0, tiers := [] }

/-- The calculation produced for `acctA` with no sales under
`ruleOpenNoTiers`. -/
def calcEmptySales : IncentiveCalculation :=
  { user_id := "u", user_name := "u", total_revenue := 0,
    total_commission := 0, commission_rate := 0,
    applicable_rule := some ruleOpenNoTiers, current_tier := none,
    next_tier := none, incentive_amount := 0, progress_percentage := 0,
    remaining_to_next_tier := 0, managed_accounts_count := 1 }

/-- Evaluation of the calculator on the empty-sales fixture. -/
lemma calcEmptySales_eval :
    calculateUserIncentive (fun s => s) "u" [acctA] [] [ruleOpenNoTiers] =
      some calcEmptySales := by
  norm_num [calculateUserIncentive, userSalesOf, sumPurchases, sumCommission,
    commissionRateOf, ruleMatches, qualifyingAccountIds, qualifyingRevenueOf,
    sortTiers, tierWalk, tierWalkAux, calcProgress, acctA, ruleOpenNoTiers,
    calcEmptySales]

/-- Witness for C8 at a concrete input (one account, no sales, one active
band-[0,100] rule): the hypothesis holds and the guarded rate is 0. -/
theorem c8_commission_rate_guarded_witness :
    calculateUserIncentive (fun s => s) "u" [acctA] [] [ruleOpenNoTiers] =
        some calcEmptySales ∧
      ((0 < sumPurchases (userSalesOf [acctA] []) →
          calcEmptySales.commission_rate =
            sumCommission (userSalesOf [acctA] []) /
              sumPurchases (userSalesOf [acctA] []) * 100) ∧
        (sumPurchases (userSalesOf [acctA] []) = 0 →
          calcEmptySales.commission_rate = 0)) :=
  ⟨calcEmptySales_eval,
    c8_commission_rate_guarded (fun s => s) "u" _ _ _ _ calcEmptySales_eval⟩

/-- C2: the applicable rule is the first active rule, in input order, whose
band contains the commission rate, where a `commission_rate_max` of exactly
100 is treated as an unbounded upper band; `find?` stops at the first match. -/
theorem c2_first_matching_rule (g : String → String) (uid : String)
    (accs : List Account) (sd : List SalesData) (rules : List IncentiveRule)
    (c : IncentiveCalculation)
    (h : calculateUserIncentive g uid accs sd rules = some c) :
    c.applicable_rule =
        (rules.filter (·.is_active)).find?
          (ruleMatches (commissionRateOf (sumPurchases (userSalesOf accs sd))
            (sumCommission (userSalesOf accs sd)))) ∧
      ∀ (rate : ℚ) (rule : IncentiveRule),
        ruleMatches rate rule = true ↔
          rule.commission_rate_min ≤ rate ∧
            (rule.commission_rate_max = 100 ∨ rate ≤ rule.commission_rate_max) := by
  refine ⟨?_, fun rate rule => by simp [ruleMatches]⟩
  by_cases h1 : accs = []
  · simp [calculateUserIncentive, show accs.length = 0 by simp [h1]] at h
  · by_cases h2 : rules.filter (·.is_active) = []
    · have h1' : ¬ accs.length = 0 := by simpa [List.length_eq_zero] using h1
      have h2' : (rules.filter (·.is_active)).length = 0 := by simp [h2]
      simp [calculateUserIncentive, if_neg h1', h2'] at h
    · cases hfind : (rules.filter (·.is_active)).find?
          (ruleMatches (commissionRateOf (sumPurchases (userSalesOf accs sd))
            (sumCommission (userSalesOf accs sd)))) with
      | none =>
        rw [calculateUserIncentive_of_find_none g uid accs sd rules h1 h2 hfind] at h
        cases Option.some.inj h
        rfl
      | some r =>
        rw [calculateUserIncentive_of_find_some g uid accs sd rules r h1 h2 hfind] at h
        cases Option.some.inj h
        rfl

/-- Witness for C2 on the empty-sales fixture. -/
theorem c2_first_matching_rule_witness :
    calculateUserIncentive (fun s => s) "u" [acctA] [] [ruleOpenNoTiers] =
        some calcEmptySales ∧
      (calcEmptySales.applicable_rule =
          ([ruleOpenNoTiers].filter (·.is_active)).find?
            (ruleMatches (commissionRateOf
              (sumPurchases (userSalesOf [acctA] []))
              (sumCommission (userSalesOf [acctA] [])))) ∧
        ∀ (rate : ℚ) (rule : IncentiveRule),
          ruleMatches rate rule = true ↔
            rule.commission_rate_min ≤ rate ∧
              (rule.commission_rate_max = 100 ∨ rate ≤ rule.commission_rate_max)) :=
  ⟨calcEmptySales_eval,
    c2_first_matching_rule (fun s => s) "u" _ _ _ _ calcEmptySales_eval⟩

/-- C7: when no active rule matches the commission rate the function still
returns a calculation: `applicable_rule = null`, zero incentive and zeroed
tier/progress fields, with the totals, rate and account count reported. -/
theorem c7_no_matching_rule_zeroed (g : String → String) (uid : String)
    (accs : List Account) (sd : List SalesData) (rules : List IncentiveRule)
    (h1 : accs ≠ []) (h2 : rules.filter (·.is_active) ≠ [])
    (hfind : (rules.filter (·.is_active)).find?
        (ruleMatches (commissionRateOf (sumPurchases (userSalesOf accs sd))
          (sumCommission (userSalesOf accs sd)))) = none) :
    calculateUserIncentive g uid accs sd rules =
      some { user_id := uid
             user_name := g uid
             total_revenue := sumPurchases (userSalesOf accs sd)
             total_commission := sumCommission (userSalesOf accs sd)
             commission_rate := commissionRateOf (sumPurchases (userSalesOf accs sd))
               (sumCommission (userSalesOf accs sd))
             applicable_rule := none
             current_tier := none
             next_tier := none
             incentive_amount := 0
             progress_percentage := 0
             remaining_to_next_tier := 0
             managed_accounts_count := accs.length } :=
  calculateUserIncentive_of_find_none g uid accs sd rules h1 h2 hfind

/-- A sales row for account `"a"`: revenue 100, commission 7 (a 7% rate). -/
def saleA7 : SalesData :=
  { account_id := "a", total_purchases := 100, gross_commission := 7 }

/-- An active rule covering commission rates [0, 5]. -/
def ruleBandLow : IncentiveRule :=
  { name := "low", is_active := true, commission_rate_min := 0,
    commission_rate_max := 5, min_commission_threshold := 0,
    base_revenue_threshold := 0, tiers := [] }

/-- An active rule covering commission rates [10, 100]. -/
def ruleBandHigh : IncentiveRule :=
  { name := "high", is_active := true, commission_rate_min := 10,
    commission_rate_max := 100, min_commission_threshold := 0,
    base_revenue_threshold := 0, tiers := [] }

/-- Witness for C7: commission rate 7% against bands [0,5] and [10,100]
matches no rule; the calculator still returns a zeroed calculation. -/
theorem c7_no_matching_rule_zeroed_witness :
    ([acctA] : List Account) ≠ [] ∧
      ([ruleBandLow, ruleBandHigh].filter (·.is_active)) ≠ [] ∧
      ([ruleBandLow, ruleBandHigh].filter (·.is_active)).find?
          (ruleMatches (commissionRateOf
            (sumPurchases (userSalesOf [acctA] [saleA7]))
            (sumCommission (userSalesOf [acctA] [saleA7])))) = none ∧
      calculateUserIncentive (fun s => s) "u" [acctA] [saleA7]
          [ruleBandLow, ruleBandHigh] =
        some { user_id := "u"
               user_name := "u"
               total_revenue := sumPurchases (userSalesOf [acctA] [saleA7])
               total_commission := sumCommission (userSalesOf [acctA] [saleA7])
               commission_rate := commissionRateOf
                 (sumPurchases (userSalesOf [acctA] [saleA7]))
                 (sumCommission (userSalesOf [acctA] [saleA7]))
               applicable_rule := none
               current_tier := none
               next_tier := none
               incentive_amount := 0
               progress_percentage := 0
               remaining_to_next_tier := 0
               managed_accounts_count := 1 } := by
  have h1 : ([acctA] : List Account) ≠ [] := by simp
  have h2 : ([ruleBandLow, ruleBandHigh].filter (·.is_active)) ≠ [] := by
    simp [ruleBandLow, ruleBandHigh]
  have hfind : ([ruleBandLow, ruleBandHigh].filter (·.is_active)).find?
      (ruleMatches (commissionRateOf
        (sumPurchases (userSalesOf [acctA] [saleA7]))
        (sumCommission (userSalesOf [acctA] [saleA7])))) = none := by
    norm_num [userSalesOf, sumPurchases, sumCommission, commissionRateOf,
      ruleMatches, acctA, saleA7, ruleBandLow, ruleBandHigh]
  exact ⟨h1, h2, hfind,
    c7_no_matching_rule_zeroed (fun s => s) "u" _ _ _ h1 h2 hfind⟩

/-- A sales row for account `"a"`: revenue 1,500,000, commission 50,000. -/
def saleBig : SalesData :=
  { account_id := "a", total_purchases := 1500000, gross_commission := 50000 }

/-- The spec's scenario rule: tiers [(0, 5%), (1,000,000, 10%)], matching any
commission rate in [0, 100]. -/
def ruleTiered : IncentiveRule :=
  { name := "t", is_active := true, commission_rate_min := 0,
    commission_rate_max := 100, min_commission_threshold := 0,
    base_revenue_threshold := 0,
    tiers := [{ revenue_threshold := 0, incentive_rate := 5 },
              { revenue_threshold := 1000000, incentive_rate := 10 }] }

/-- The calculation produced for the scenario: graduated incentive
1,000,000×5% + 500,000×10% = 100,000, top tier reached. -/
def calcScenario : IncentiveCalculation :=
  { user_id := "u", user_name := "u", total_revenue := 1500000,
    total_commission := 50000, commission_rate := 10 / 3,
    applicable_rule := some ruleTiered,
    current_tier := some { revenue_threshold := 1000000, incentive_rate := 10 },
    next_tier := none, incentive_amount := 100000, progress_percentage := 100,
    remaining_to_next_tier := 0, managed_accounts_count := 1 }

/-- Evaluation of the calculator on the scenario fixture. -/
lemma calcScenario_eval :
    calculateUserIncentive (fun s => s) "u" [acctA] [saleBig] [ruleTiered] =
      some calcScenario := by
  have hsort : sortTiers [{ revenue_threshold := 0, incentive_rate := 5 },
      { revenue_threshold := 1000000, incentive_rate := 10 }] =
      [{ revenue_threshold := 0, incentive_rate := 5 },
       { revenue_threshold := 1000000, incentive_rate := 10 }] :=
    sortTiers_eq_self _ (by norm_num [List.pairwise_cons])
  norm_num [calculateUserIncentive, userSalesOf, sumPurchases, sumCommission,
    commissionRateOf, ruleMatches, qualifyingAccountIds, qualifyingRevenueOf,
    ruleTiered, hsort, tierWalk, tierWalkAux, calcProgress, acctA, saleBig,
    calcScenario, min_def]

/-- C1: on a strictly ascending list of nonnegatively-thresholded tiers the
walk accrues, for each tier at or below `qualifyingRevenue`,
`(min(qualifyingRevenue, next threshold) - threshold) × rate/100`, and its
`nextTier` is the first tier whose threshold exceeds `qualifyingRevenue`
(early exit); on the spec's scenario the incentive is 100,000. -/
theorem c1_tier_accrual (L : List Tier) (qR : ℚ)
    (hsort : L.Pairwise fun a b => a.revenue_threshold < b.revenue_threshold)
    (hnn : ∀ t ∈ L, 0 ≤ t.revenue_threshold) :
    (tierWalk L qR).1 = specTierSum L qR ∧
      (tierWalk L qR).2.2 = L.find? (fun t => decide (qR < t.revenue_threshold)) ∧
      (calculateUserIncentive (fun s => s) "u" [acctA] [saleBig] [ruleTiered]).map
          (·.incentive_amount) = some 100000 :=
  ⟨tierWalk_amount_eq_specTierSum qR L hsort hnn, tierWalk_next_eq_find qR L,
    by rw [calcScenario_eval]; norm_num [calcScenario]⟩

/-- Witness for C1 on the scenario's sorted tier list at revenue 1,500,000. -/
theorem c1_tier_accrual_witness :
    ([{ revenue_threshold := 0, incentive_rate := 5 },
      { revenue_threshold := 1000000, incentive_rate := 10 }] : List Tier).Pairwise
        (fun a b => a.revenue_threshold < b.revenue_threshold) ∧
      (∀ t ∈ ([{ revenue_threshold := 0, incentive_rate := 5 },
          { revenue_threshold := 1000000, incentive_rate := 10 }] : List Tier),
        0 ≤ t.revenue_threshold) ∧
      ((tierWalk [{ revenue_threshold := 0, incentive_rate := 5 },
           { revenue_threshold := 1000000, incentive_rate := 10 }] 1500000).1 =
          specTierSum [{ revenue_threshold := 0, incentive_rate := 5 },
            { revenue_threshold := 1000000, incentive_rate := 10 }] 1500000 ∧
        (tierWalk [{ revenue_threshold := 0, incentive_rate := 5 },
            { revenue_threshold := 1000000, incentive_rate := 10 }] 1500000).2.2 =
          ([{ revenue_threshold := 0, incentive_rate := 5 },
            { revenue_threshold := 1000000, incentive_rate := 10 }] : List Tier).find?
            (fun t => decide ((1500000:ℚ) < t.revenue_threshold)) ∧
        (calculateUserIncentive (fun s => s) "u" [acctA] [saleBig] [ruleTiered]).map
            (·.incentive_amount) = some 100000) := by
  have hsort : ([{ revenue_threshold := 0, incentive_rate := 5 },
      { revenue_threshold := 1000000, incentive_rate := 10 }] : List Tier).Pairwise
        (fun a b => a.revenue_threshold < b.revenue_threshold) := by
    norm_num [List.pairwise_cons]
  have hnn : ∀ t ∈ ([{ revenue_threshold := 0, incentive_rate := 5 },
      { revenue_threshold := 1000000, incentive_rate := 10 }] : List Tier),
      0 ≤ t.revenue_threshold := by
    intro t ht
    simp only [List.mem_cons, List.mem_singleton] at ht
    rcases ht with rfl | rfl | h
    · norm_num
    · norm_num
    · exact absurd h (List.not_mem_nil t)
  exact ⟨hsort, hnn, c1_tier_accrual _ 1500000 hsort hnn⟩

/-- For an account in the user's list, filtering the user's sales rows down
to that account gives exactly the account's own rows of the full data set. -/
lemma userSales_filter_account (accs : List Account) (sd : List SalesData)
    (a : Account) (ha : a ∈ accs) :
    (userSalesOf accs sd).filter (fun d => d.account_id == a.id) =
      sd.filter (fun d => d.account_id == a.id) := by
  unfold userSalesOf
  rw [List.filter_filter]
  refine List.filter_congr ?_
  intro d _
  by_cases hda : d.account_id = a.id
  · have h1 : (d.account_id == a.id) = true := by simp [hda]
    have h2 : (accs.any fun acc => acc.id == d.account_id) = true := by
      rw [List.any_eq_true]
      exact ⟨a, ha, by simp [hda]⟩
    rw [h1, h2]
    rfl
  · simp [hda]

/-- Membership in the qualifying-id set is exactly the per-account commission
threshold test. -/
lemma mem_qualifyingAccountIds (accs : List Account) (usd : List SalesData)
    (rule : IncentiveRule) (a : Account) (ha : a ∈ accs) :
    (qualifyingAccountIds accs usd rule).contains a.id = true ↔
      rule.min_commission_threshold ≤
        sumCommission (usd.filter fun d => d.account_id == a.id) := by
  unfold qualifyingAccountIds
  constructor
  · intro h
    obtain ⟨x, hx, hxa⟩ := List.contains_iff_exists_mem_beq.mp h
    obtain ⟨b, hb, hbid⟩ := List.mem_map.mp hx
    have hbf := List.mem_filter.mp hb
    have hq := of_decide_eq_true hbf.2
    have hba : b.id = a.id := by rw [hbid]; exact (eq_of_beq hxa).symm
    rwa [hba] at hq
  · intro h
    apply List.contains_iff_exists_mem_beq.mpr
    refine ⟨a.id, ?_, by simp⟩
    apply List.mem_map.mpr
    exact ⟨a, List.mem_filter.mpr ⟨ha, decide_eq_true h⟩, rfl⟩

/-- Rewriting the `total_purchases` of every non-qualifying row leaves the
qualifying revenue unchanged. -/
lemma qualifyingRevenue_ignores_nonqualifying (qids : List String) (v : ℚ) :
    ∀ usd : List SalesData,
      qualifyingRevenueOf
          (usd.map fun d => if qids.contains d.account_id then d
            else { d with total_purchases := v }) qids =
        qualifyingRevenueOf usd qids := by
  intro usd
  induction usd with
  | nil => rfl
  | cons d rest ih =>
    by_cases h : qids.contains d.account_id = true
    · simp only [qualifyingRevenueOf, sumPurchases, List.map_cons, if_pos h,
        List.filter_cons, h, if_true, List.map_cons, List.sum_cons] at *
      rw [ih]
    · have h' : qids.contains d.account_id = false := by
        simpa using h
      have hacc : ({ d with total_purchases := v } : SalesData).account_id =
          d.account_id := rfl
      simp only [qualifyingRevenueOf, sumPurchases, List.map_cons, if_neg h,
        List.filter_cons, hacc, h', Bool.false_eq_true, if_false] at *
      exact ih

/-- C3: under the matched rule, an account qualifies iff the summed
`gross_commission` of its own sales rows meets `min_commission_threshold`,
and the qualifying revenue is insensitive to the `total_purchases` of
non-qualifying rows. -/
theorem c3_qualifying_accounts (g : String → String) (uid : String)
    (accs : List Account) (sd : List SalesData) (rules : List IncentiveRule)
    (c : IncentiveCalculation) (rule : IncentiveRule)
    (_h : calculateUserIncentive g uid accs sd rules = some c)
    (_hr : c.applicable_rule = some rule) :
    (∀ a ∈ accs,
        ((qualifyingAccountIds accs (userSalesOf accs sd) rule).contains a.id = true ↔
          rule.min_commission_threshold ≤
            sumCommission (sd.filter fun d => d.account_id == a.id))) ∧
      ∀ v : ℚ,
        qualifyingRevenueOf
            ((userSalesOf accs sd).map fun d =>
              if (qualifyingAccountIds accs (userSalesOf accs sd) rule).contains
                  d.account_id then d
              else { d with total_purchases := v })
            (qualifyingAccountIds accs (userSalesOf accs sd) rule) =
          qualifyingRevenueOf (userSalesOf accs sd)
            (qualifyingAccountIds accs (userSalesOf accs sd) rule) := by
  constructor
  · intro a ha
    rw [mem_qualifyingAccountIds accs (userSalesOf accs sd) rule a ha,
      userSales_filter_account accs sd a ha]
  · intro v
    exact qualifyingRevenue_ignores_nonqualifying _ v _

/-- A second account with id `"b"`. -/
def acctB : Account := { id := "b" }

/-- A sales row for account `"b"`: large revenue, zero commission. -/
def saleSmallB : SalesData :=
  { account_id := "b", total_purchases := 100000, gross_commission := 0 }

/-- An active band-[0,100] rule requiring at least 10 commission per
account; no tiers. -/
def ruleThresh : IncentiveRule :=
  { name := "m", is_active := true, commission_rate_min := 0,
    commission_rate_max := 100, min_commission_threshold := 10,
    base_revenue_threshold := 0, tiers := [] }

/-- The calculation for accounts `"a"` (qualifying) and `"b"`
(non-qualifying) under `ruleThresh`. -/
def calcThresh : IncentiveCalculation :=
  { user_id := "u", user_name := "u", total_revenue := 1600000,
    total_commission := 50000, commission_rate := 25 / 8,
    applicable_rule := some ruleThresh, current_tier := none,
    next_tier := none, incentive_amount := 0, progress_percentage := 0,
    remaining_to_next_tier := 0, managed_accounts_count := 2 }

/-- Evaluation of the calculator on the threshold fixture. -/
lemma calcThresh_eval :
    calculateUserIncentive (fun s => s) "u" [acctA, acctB]
        [saleBig, saleSmallB] [ruleThresh] = some calcThresh := by
  norm_num [calculateUserIncentive, userSalesOf, sumPurchases, sumCommission,
    commissionRateOf, ruleMatches, qualifyingAccountIds, qualifyingRevenueOf,
    sortTiers, tierWalk, tierWalkAux, calcProgress, acctA, acctB, saleBig,
    saleSmallB, ruleThresh, calcThresh]

/-- Witness for C3 on the threshold fixture: account `"a"` qualifies,
account `"b"` does not. -/
theorem c3_qualifying_accounts_witness :
    calculateUserIncentive (fun s => s) "u" [acctA, acctB]
        [saleBig, saleSmallB] [ruleThresh] = some calcThresh ∧
      calcThresh.applicable_rule = some ruleThresh ∧
      ((∀ a ∈ [acctA, acctB],
          ((qualifyingAccountIds [acctA, acctB]
              (userSalesOf [acctA, acctB] [saleBig, saleSmallB])
              ruleThresh).contains a.id = true ↔
            ruleThresh.min_commission_threshold ≤
              sumCommission ([saleBig, saleSmallB].filter
                fun d => d.account_id == a.id))) ∧
        ∀ v : ℚ,
          qualifyingRevenueOf
              ((userSalesOf [acctA, acctB] [saleBig, saleSmallB]).map fun d =>
                if (qualifyingAccountIds [acctA, acctB]
                    (userSalesOf [acctA, acctB] [saleBig, saleSmallB])
                    ruleThresh).contains d.account_id then d
                else { d with total_purchases := v })
              (qualifyingAccountIds [acctA, acctB]
                (userSalesOf [acctA, acctB] [saleBig, saleSmallB]) ruleThresh) =
            qualifyingRevenueOf (userSalesOf [acctA, acctB] [saleBig, saleSmallB])
              (qualifyingAccountIds [acctA, acctB]
                (userSalesOf [acctA, acctB] [saleBig, saleSmallB]) ruleThresh)) :=
  ⟨calcThresh_eval, rfl,
    c3_qualifying_accounts (fun s => s) "u" _ _ _ _ _ calcThresh_eval rfl⟩

/-- A sales row for account `"a"`: revenue 100, commission 5 (a 5% rate). -/
def saleMid : SalesData :=
  { account_id := "a", total_purchases := 100, gross_commission := 5 }

/-- An active band-[0,100] rule whose commission threshold disqualifies the
account and whose `base_revenue_threshold` (5) sits between the qualifying
revenue (0) and the single tier threshold (10). -/
def ruleBaseAbove : IncentiveRule :=
  { name := "n", is_active := true, commission_rate_min := 0,
    commission_rate_max := 100, min_commission_threshold := 100,
    base_revenue_threshold := 5,
    tiers := [{ revenue_threshold := 10, incentive_rate := 5 }] }

/-- The calculation for `saleMid` under `ruleBaseAbove`: the computed
progress percentage is -100 (only clamped from above). -/
def calcBaseAbove : IncentiveCalculation :=
  { user_id := "u", user_name := "u", total_revenue := 100,
    total_commission := 5, commission_rate := 5,
    applicable_rule := some ruleBaseAbove, current_tier := none,
    next_tier := some { revenue_threshold := 10, incentive_rate := 5 },
    incentive_amount := 0, progress_percentage := -100,
    remaining_to_next_tier := 10, managed_accounts_count := 1 }

/-- Evaluation of the calculator on the base-above fixture. -/
lemma calcBaseAbove_eval :
    calculateUserIncentive (fun s => s) "u" [acctA] [saleMid] [ruleBaseAbove] =
      some calcBaseAbove := by
  norm_num [calculateUserIncentive, userSalesOf, sumPurchases, sumCommission,
    commissionRateOf, ruleMatches, qualifyingAccountIds, qualifyingRevenueOf,
    sortTiers, tierWalk, tierWalkAux, calcProgress, acctA, saleMid,
    ruleBaseAbove, calcBaseAbove, List.mergeSort_singleton]

/-- A sales row for account `"a"`: revenue 3, commission 3 (a 100% rate). -/
def saleTiny : SalesData :=
  { account_id := "a", total_purchases := 3, gross_commission := 3 }

/-- An active band-[0,100] rule with tiers at 0 and 10 and
`base_revenue_threshold` 5: the matched tier's threshold 0 is JS-falsy, so
the progress computation falls back to the base threshold. -/
def ruleFalsy : IncentiveRule :=
  { name := "f", is_active := true, commission_rate_min := 0,
    commission_rate_max := 100, min_commission_threshold := 0,
    base_revenue_threshold := 5,
    tiers := [{ revenue_threshold := 0, incentive_rate := 5 },
              { revenue_threshold := 10, incentive_rate := 10 }] }

/-- The calculation for `saleTiny` under `ruleFalsy`: current tier (0, 5%),
next tier (10, 10%), qualifying revenue 3, and computed progress
`min((3-5)/(10-5)*100, 100) = -40`. -/
def calcFalsy : IncentiveCalculation :=
  { user_id := "u", user_name := "u", total_revenue := 3,
    total_commission := 3, commission_rate := 100,
    applicable_rule := some ruleFalsy,
    current_tier := some { revenue_threshold := 0, incentive_rate := 5 },
    next_tier := some { revenue_threshold := 10, incentive_rate := 10 },
    incentive_amount := 3 / 20, progress_percentage := -40,
    remaining_to_next_tier := 7, managed_accounts_count := 1 }

/-- Evaluation of the calculator on the falsy-threshold fixture. -/
lemma calcFalsy_eval :
    calculateUserIncentive (fun s => s) "u" [acctA] [saleTiny] [ruleFalsy] =
      some calcFalsy := by
  have hsort : sortTiers [{ revenue_threshold := 0, incentive_rate := 5 },
      { revenue_threshold := 10, incentive_rate := 10 }] =
      [{ revenue_threshold := 0, incentive_rate := 5 },
       { revenue_threshold := 10, incentive_rate := 10 }] :=
    sortTiers_eq_self _ (by norm_num [List.pairwise_cons])
  norm_num [calculateUserIncentive, userSalesOf, sumPurchases, sumCommission,
    commissionRateOf, ruleMatches, qualifyingAccountIds, qualifyingRevenueOf,
    hsort, tierWalk, tierWalkAux, calcProgress, acctA, saleTiny,
    ruleFalsy, calcFalsy, min_def]

/-- The `currentThreshold` of the progress computation (source line 149):
`currentTier?.revenue_threshold || bestRule.base_revenue_threshold`. -/
def currentThresholdOf (rule : IncentiveRule) : Option Tier → ℚ
  | some ct =>
    if ct.revenue_threshold = 0 then rule.base_revenue_threshold
    else ct.revenue_threshold
  | none => rule.base_revenue_threshold

lemma calcProgress_some (r : IncentiveRule) (q : ℚ) (cur : Option Tier)
    (nt : Tier) :
    calcProgress r q cur (some nt) =
      (min ((q - currentThresholdOf r cur) /
          (nt.revenue_threshold - currentThresholdOf r cur) * 100) 100,
        max (nt.revenue_threshold - q) 0) := by
  cases cur <;> rfl

lemma calcProgress_bounds (r : IncentiveRule) (q : ℚ) (cur nt : Option Tier) :
    (calcProgress r q cur nt).1 ≤ 100 ∧ 0 ≤ (calcProgress r q cur nt).2 := by
  cases nt with
  | some t => exact ⟨min_le_right _ _, le_max_right _ _⟩
  | none =>
    cases cur with
    | some ct => exact ⟨le_refl _, le_refl _⟩
    | none => norm_num [calcProgress]

/-- Every produced calculation is either the no-rule record or the record
built from the matched rule's tier walk and progress computation. -/
lemma calculateUserIncentive_shape (g : String → String) (uid : String)
    (accs : List Account) (sd : List SalesData) (rules : List IncentiveRule)
    (c : IncentiveCalculation)
    (h : calculateUserIncentive g uid accs sd rules = some c) :
    (c.applicable_rule = none ∧ c.current_tier = none ∧ c.next_tier = none ∧
        c.incentive_amount = 0 ∧ c.progress_percentage = 0 ∧
        c.remaining_to_next_tier = 0) ∨
      ∃ bestRule, c.applicable_rule = some bestRule ∧
        c.current_tier =
          (tierWalk (sortTiers bestRule.tiers)
            (qualifyingRevenueOf (userSalesOf accs sd)
              (qualifyingAccountIds accs (userSalesOf accs sd) bestRule))).2.1 ∧
        c.next_tier =
          (tierWalk (sortTiers bestRule.tiers)
            (qualifyingRevenueOf (userSalesOf accs sd)
              (qualifyingAccountIds accs (userSalesOf accs sd) bestRule))).2.2 ∧
        c.incentive_amount =
          (tierWalk (sortTiers bestRule.tiers)
            (qualifyingRevenueOf (userSalesOf accs sd)
              (qualifyingAccountIds accs (userSalesOf accs sd) bestRule))).1 ∧
        c.progress_percentage =
          (calcProgress bestRule
            (qualifyingRevenueOf (userSalesOf accs sd)
              (qualifyingAccountIds accs (userSalesOf accs sd) bestRule))
            (tierWalk (sortTiers bestRule.tiers)
              (qualifyingRevenueOf (userSalesOf accs sd)
                (qualifyingAccountIds accs (userSalesOf accs sd) bestRule))).2.1
            (tierWalk (sortTiers bestRule.tiers)
              (qualifyingRevenueOf (userSalesOf accs sd)
                (qualifyingAccountIds accs (userSalesOf accs sd) bestRule))).2.2).1 ∧
        c.remaining_to_next_tier =
          (calcProgress bestRule
            (qualifyingRevenueOf (userSalesOf accs sd)
              (qualifyingAccountIds accs (userSalesOf accs sd) bestRule))
            (tierWalk (sortTiers bestRule.tiers)
              (qualifyingRevenueOf (userSalesOf accs sd)
                (qualifyingAccountIds accs (userSalesOf accs sd) bestRule))).2.1
            (tierWalk (sortTiers bestRule.tiers)
              (qualifyingRevenueOf (userSalesOf accs sd)
                (qualifyingAccountIds accs (userSalesOf accs sd) bestRule))).2.2).2 := by
  by_cases h1 : accs = []
  · simp [calculateUserIncentive, show accs.length = 0 by simp [h1]] at h
  · by_cases h2 : rules.filter (·.is_active) = []
    · have h1' : ¬ accs.length = 0 := by simpa [List.length_eq_zero] using h1
      have h2' : (rules.filter (·.is_active)).length = 0 := by simp [h2]
      simp [calculateUserIncentive, if_neg h1', h2'] at h
    · cases hfind : (rules.filter (·.is_active)).find?
          (ruleMatches (commissionRateOf (sumPurchases (userSalesOf accs sd))
            (sumCommission (userSalesOf accs sd)))) with
      | none =>
        left
        rw [calculateUserIncentive_of_find_none g uid accs sd rules h1 h2 hfind] at h
        cases Option.some.inj h
        exact ⟨rfl, rfl, rfl, rfl, rfl, rfl⟩
      | some r =>
        right
        rw [calculateUserIncentive_of_find_some g uid accs sd rules r h1 h2 hfind] at h
        cases Option.some.inj h
        exact ⟨r, rfl, rfl, rfl, rfl, rfl, rfl⟩

/-- C5 counterexample: with qualifying revenue 0, a base threshold of 5 and
a single tier at 10, the produced `progress_percentage` is -100, outside
[0, 100] — the code clamps only from above. -/
theorem c5_progress_counterexample :
    (calculateUserIncentive (fun s => s) "u" [acctA] [saleMid]
        [ruleBaseAbove]).map (·.progress_percentage) = some (-100) ∧
      ¬ (0:ℚ) ≤ (-100:ℚ) := by
  constructor
  · rw [calcBaseAbove_eval]; rfl
  · norm_num

/-- C5 amended: `progress_percentage` is always at most 100 (it is not
clamped from below and can be negative), and `remaining_to_next_tier` is
never negative. -/
theorem c5_progress_bounds (g : String → String) (uid : String)
    (accs : List Account) (sd : List SalesData) (rules : List IncentiveRule)
    (c : IncentiveCalculation)
    (h : calculateUserIncentive g uid accs sd rules = some c) :
    c.progress_percentage ≤ 100 ∧ 0 ≤ c.remaining_to_next_tier := by
  rcases calculateUserIncentive_shape g uid accs sd rules c h with
    ⟨_, _, _, _, hp, hrem⟩ | ⟨r, _, _, _, _, hp, hrem⟩
  · rw [hp, hrem]
    norm_num
  · rw [hp, hrem]
    exact calcProgress_bounds _ _ _ _

/-- Witness for C5 (amended) on the empty-sales fixture. -/
theorem c5_progress_bounds_witness :
    calculateUserIncentive (fun s => s) "u" [acctA] [] [ruleOpenNoTiers] =
        some calcEmptySales ∧
      (calcEmptySales.progress_percentage ≤ 100 ∧
        0 ≤ calcEmptySales.remaining_to_next_tier) :=
  ⟨calcEmptySales_eval,
    c5_progress_bounds (fun s => s) "u" _ _ _ _ calcEmptySales_eval⟩

/-- C4 counterexample: with matched tier (0, 5%), next tier (10, 10%),
qualifying revenue 3 and base threshold 5, the claim's formula (current
threshold 0, clamped to [0,100]) yields 30, but the code yields -40: the
zero threshold is JS-falsy and falls back to the base threshold, and there
is no lower clamp. -/
theorem c4_progress_counterexample :
    (calculateUserIncentive (fun s => s) "u" [acctA] [saleTiny] [ruleFalsy]).map
        (·.progress_percentage) = some (-40) ∧
      (calculateUserIncentive (fun s => s) "u" [acctA] [saleTiny] [ruleFalsy]).map
        (·.current_tier) =
        some (some { revenue_threshold := 0, incentive_rate := 5 }) ∧
      (calculateUserIncentive (fun s => s) "u" [acctA] [saleTiny] [ruleFalsy]).map
        (·.next_tier) =
        some (some { revenue_threshold := 10, incentive_rate := 10 }) ∧
      qualifyingRevenueOf (userSalesOf [acctA] [saleTiny])
        (qualifyingAccountIds [acctA] (userSalesOf [acctA] [saleTiny])
          ruleFalsy) = 3 ∧
      (-40:ℚ) ≠ min (max (((3:ℚ) - 0) / (10 - 0) * 100) 0) 100 ∧
      ¬ (0:ℚ) ≤ (-40:ℚ) := by
  refine ⟨by rw [calcFalsy_eval]; rfl, by rw [calcFalsy_eval]; rfl,
    by rw [calcFalsy_eval]; rfl, ?_, by norm_num [min_def, max_def],
    by norm_num⟩
  norm_num [userSalesOf, qualifyingAccountIds, qualifyingRevenueOf,
    sumPurchases, sumCommission, acctA, saleTiny, ruleFalsy]

/-- C4 amended: whenever a next tier exists,
`progress_percentage = min((qR - cth)/(nextTh - cth) × 100, 100)` — clamped
only from above — where `cth` is the matched tier's threshold unless that
threshold is 0 or no tier matched, in which case it is the rule's
`base_revenue_threshold`; `remaining_to_next_tier = max(nextTh - qR, 0)`.
With no next tier but a current tier, progress is 100 and remaining is 0. -/
theorem c4_progress_formula (g : String → String) (uid : String)
    (accs : List Account) (sd : List SalesData) (rules : List IncentiveRule)
    (c : IncentiveCalculation) (rule : IncentiveRule)
    (h : calculateUserIncentive g uid accs sd rules = some c)
    (hr : c.applicable_rule = some rule) :
    (∀ nt, c.next_tier = some nt →
        c.progress_percentage =
            min ((qualifyingRevenueOf (userSalesOf accs sd)
                  (qualifyingAccountIds accs (userSalesOf accs sd) rule) -
                currentThresholdOf rule c.current_tier) /
                (nt.revenue_threshold - currentThresholdOf rule c.current_tier) *
                100) 100 ∧
          c.remaining_to_next_tier =
            max (nt.revenue_threshold -
              qualifyingRevenueOf (userSalesOf accs sd)
                (qualifyingAccountIds accs (userSalesOf accs sd) rule)) 0) ∧
      (c.next_tier = none → ∀ ct, c.current_tier = some ct →
        c.progress_percentage = 100 ∧ c.remaining_to_next_tier = 0) := by
  rcases calculateUserIncentive_shape g uid accs sd rules c h with
    ⟨ha, -, -, -, -, -⟩ | ⟨r, happ, hcur, hnext, -, hp, hrem⟩
  · rw [ha] at hr
    simp at hr
  · have hrr : r = rule := by rw [happ] at hr; exact Option.some.inj hr
    subst hrr
    constructor
    · intro nt hnt
      rw [hnext] at hnt
      rw [hp, hrem, hnt, calcProgress_some, hcur]
      exact ⟨rfl, rfl⟩
    · intro hn ct hct
      rw [hnext] at hn
      rw [hcur] at hct
      rw [hp, hrem, hn, hct]
      exact ⟨rfl, rfl⟩

/-- Witness for C4 (amended) on the falsy-threshold fixture. -/
theorem c4_progress_formula_witness :
    calculateUserIncentive (fun s => s) "u" [acctA] [saleTiny] [ruleFalsy] =
        some calcFalsy ∧
      calcFalsy.applicable_rule = some ruleFalsy ∧
      ((∀ nt, calcFalsy.next_tier = some nt →
          calcFalsy.progress_percentage =
              min ((qualifyingRevenueOf (userSalesOf [acctA] [saleTiny])
                    (qualifyingAccountIds [acctA]
                      (userSalesOf [acctA] [saleTiny]) ruleFalsy) -
                  currentThresholdOf ruleFalsy calcFalsy.current_tier) /
                  (nt.revenue_threshold -
                    currentThresholdOf ruleFalsy calcFalsy.current_tier) *
                  100) 100 ∧
            calcFalsy.remaining_to_next_tier =
              max (nt.revenue_threshold -
                qualifyingRevenueOf (userSalesOf [acctA] [saleTiny])
                  (qualifyingAccountIds [acctA]
                    (userSalesOf [acctA] [saleTiny]) ruleFalsy)) 0) ∧
        (calcFalsy.next_tier = none → ∀ ct, calcFalsy.current_tier = some ct →
          calcFalsy.progress_percentage = 100 ∧
            calcFalsy.remaining_to_next_tier = 0)) :=
  ⟨calcFalsy_eval, rfl,
    c4_progress_formula (fun s => s) "u" _ _ _ _ _ calcFalsy_eval rfl⟩

lemma specTierSum_band (lo hi : Tier) (post : List Tier) (r : ℚ)
    (h1 : lo.revenue_threshold ≤ r) (h2 : r < hi.revenue_threshold) :
    specTierSum (lo :: hi :: post) r =
      (r - lo.revenue_threshold) * (lo.incentive_rate / 100) := by
  rw [specTierSum_cons_cons, if_pos h1, min_eq_left h2.le]
  have hz : specTierSum (hi :: post) r = 0 := by
    cases post with
    | nil => rw [specTierSum_single, if_neg (not_le.mpr h2)]
    | cons c cs => rw [specTierSum_cons_cons, if_neg (not_le.mpr h2)]
  rw [hz]
  ring

lemma specTierSum_band_diff (lo hi : Tier) (post : List Tier) (r1 r2 : ℚ)
    (h1 : lo.revenue_threshold < r1) (h12 : r1 ≤ r2)
    (h2 : r2 < hi.revenue_threshold) :
    ∀ pre : List Tier,
      (pre ++ lo :: hi :: post).Pairwise
        (fun a b => a.revenue_threshold < b.revenue_threshold) →
      specTierSum (pre ++ lo :: hi :: post) r2 -
          specTierSum (pre ++ lo :: hi :: post) r1 =
        (r2 - r1) * (lo.incentive_rate / 100) := by
  intro pre
  induction pre with
  | nil =>
    intro _
    rw [List.nil_append,
      specTierSum_band lo hi post r1 h1.le (lt_of_le_of_lt h12 h2),
      specTierSum_band lo hi post r2 (le_trans h1.le h12) h2]
    ring
  | cons a pre' ih =>
    intro hsort
    have hsort' : (pre' ++ lo :: hi :: post).Pairwise
        (fun a b => a.revenue_threshold < b.revenue_threshold) :=
      (List.pairwise_cons.mp hsort).2
    have halo : a.revenue_threshold < lo.revenue_threshold :=
      (List.pairwise_cons.mp hsort).1 lo (by simp)
    have har1 : a.revenue_threshold ≤ r1 := (halo.trans h1).le
    have har2 : a.revenue_threshold ≤ r2 := le_trans har1 h12
    have hdiff := ih hsort'
    cases pre' with
    | nil =>
      simp only [List.nil_append, List.cons_append] at hdiff ⊢
      rw [specTierSum_cons_cons, if_pos har2, min_eq_right (le_trans h1.le h12),
        specTierSum_cons_cons a lo (hi :: post) r1, if_pos har1,
        min_eq_right h1.le]
      linarith
    | cons b pre'' =>
      have hblo : b.revenue_threshold < lo.revenue_threshold :=
        (List.pairwise_cons.mp hsort').1 lo (by simp)
      have hbr1 : b.revenue_threshold ≤ r1 := (hblo.trans h1).le
      have hbr2 : b.revenue_threshold ≤ r2 := le_trans hbr1 h12
      simp only [List.cons_append] at hdiff ⊢
      rw [specTierSum_cons_cons, if_pos har2, min_eq_right hbr2,
        specTierSum_cons_cons a b (pre'' ++ lo :: hi :: post) r1, if_pos har1,
        min_eq_right hbr1]
      linarith

/-- C9: between two adjacent sorted tiers the incentive amount is linear in
`qualifyingRevenue` with slope the lower tier's rate over 100, and (for a
positive rate) strictly increasing. -/
theorem c9_band_linearity (pre post : List Tier) (lo hi : Tier) (r1 r2 : ℚ)
    (hsort : (pre ++ lo :: hi :: post).Pairwise
      (fun a b => a.revenue_threshold < b.revenue_threshold))
    (hnn : ∀ t ∈ pre ++ lo :: hi :: post, 0 ≤ t.revenue_threshold)
    (h1 : lo.revenue_threshold < r1) (h12 : r1 < r2)
    (h2 : r2 < hi.revenue_threshold) (hrate : 0 < lo.incentive_rate) :
    (tierWalk (pre ++ lo :: hi :: post) r2).1 -
        (tierWalk (pre ++ lo :: hi :: post) r1).1 =
      (r2 - r1) * (lo.incentive_rate / 100) ∧
    (tierWalk (pre ++ lo :: hi :: post) r1).1 <
      (tierWalk (pre ++ lo :: hi :: post) r2).1 := by
  have e1 := tierWalk_amount_eq_specTierSum r1 (pre ++ lo :: hi :: post) hsort hnn
  have e2 := tierWalk_amount_eq_specTierSum r2 (pre ++ lo :: hi :: post) hsort hnn
  have hd := specTierSum_band_diff lo hi post r1 r2 h1 h12.le h2 pre hsort
  have hpos : 0 < (r2 - r1) * (lo.incentive_rate / 100) :=
    mul_pos (sub_pos.mpr h12) (div_pos hrate (by norm_num))
  constructor
  · rw [e1, e2]
    exact hd
  · rw [e1, e2]
    linarith

/-- Witness for C9 on tiers (0, 5%) and (10, 10%) at revenues 2 and 4. -/
theorem c9_band_linearity_witness :
    ((([] : List Tier) ++ ({ revenue_threshold := 0, incentive_rate := 5 } : Tier) ::
        ({ revenue_threshold := 10, incentive_rate := 10 } : Tier) ::
        ([] : List Tier)).Pairwise
      (fun a b => a.revenue_threshold < b.revenue_threshold)) ∧
    (∀ t ∈ ([] : List Tier) ++ ({ revenue_threshold := 0, incentive_rate := 5 } : Tier) ::
        ({ revenue_threshold := 10, incentive_rate := 10 } : Tier) :: ([] : List Tier),
      0 ≤ t.revenue_threshold) ∧
    (({ revenue_threshold := 0, incentive_rate := 5 } : Tier).revenue_threshold < (2:ℚ)) ∧
    ((2:ℚ) < 4) ∧
    ((4:ℚ) < ({ revenue_threshold := 10, incentive_rate := 10 } : Tier).revenue_threshold) ∧
    (0 < ({ revenue_threshold := 0, incentive_rate := 5 } : Tier).incentive_rate) ∧
    ((tierWalk (([] : List Tier) ++
          ({ revenue_threshold := 0, incentive_rate := 5 } : Tier) ::
          ({ revenue_threshold := 10, incentive_rate := 10 } : Tier) ::
          ([] : List Tier)) 4).1 -
        (tierWalk (([] : List Tier) ++
          ({ revenue_threshold := 0, incentive_rate := 5 } : Tier) ::
          ({ revenue_threshold := 10, incentive_rate := 10 } : Tier) ::
          ([] : List Tier)) 2).1 =
      ((4:ℚ) - 2) * (({ revenue_threshold := 0, incentive_rate := 5 } : Tier).incentive_rate / 100) ∧
      (tierWalk (([] : List Tier) ++
          ({ revenue_threshold := 0, incentive_rate := 5 } : Tier) ::
          ({ revenue_threshold := 10, incentive_rate := 10 } : Tier) ::
          ([] : List Tier)) 2).1 <
        (tierWalk (([] : List Tier) ++
          ({ revenue_threshold := 0, incentive_rate := 5 } : Tier) ::
          ({ revenue_threshold := 10, incentive_rate := 10 } : Tier) ::
          ([] : List Tier)) 4).1) := by
  have hsort : (([] : List Tier) ++ ({ revenue_threshold := 0, incentive_rate := 5 } : Tier) ::
      ({ revenue_threshold := 10, incentive_rate := 10 } : Tier) ::
      ([] : List Tier)).Pairwise
        (fun a b => a.revenue_threshold < b.revenue_threshold) := by
    norm_num [List.pairwise_cons]
  have hnn : ∀ t ∈ ([] : List Tier) ++ ({ revenue_threshold := 0, incentive_rate := 5 } : Tier) ::
      ({ revenue_threshold := 10, incentive_rate := 10 } : Tier) :: ([] : List Tier),
      0 ≤ t.revenue_threshold := by
    intro t ht
    simp only [List.nil_append, List.mem_cons, List.mem_singleton] at ht
    rcases ht with rfl | rfl | h
    · norm_num
    · norm_num
    · exact absurd h (List.not_mem_nil t)
  exact ⟨hsort, hnn, by norm_num, by norm_num, by norm_num, by norm_num,
    c9_band_linearity [] [] _ _ 2 4 hsort hnn (by norm_num) (by norm_num)
      (by norm_num) (by norm_num)⟩

/-- `ruleTiered` with its tiers supplied in the opposite order. -/
def ruleTieredRev : IncentiveRule :=
  { name := "t", is_active := true, commission_rate_min := 0,
    commission_rate_max := 100, min_commission_threshold := 0,
    base_revenue_threshold := 0,
    tiers := [{ revenue_threshold := 1000000, incentive_rate := 10 },
              { revenue_threshold := 0, incentive_rate := 5 }] }

/-- The scenario calculation under `ruleTieredRev`: identical to
`calcScenario` except that `applicable_rule` embeds the reversed tiers. -/
def calcScenarioRev : IncentiveCalculation :=
  { user_id := "u", user_name := "u", total_revenue := 1500000,
    total_commission := 50000, commission_rate := 10 / 3,
    applicable_rule := some ruleTieredRev,
    current_tier := some { revenue_threshold := 1000000, incentive_rate := 10 },
    next_tier := none, incentive_amount := 100000, progress_percentage := 100,
    remaining_to_next_tier := 0, managed_accounts_count := 1 }

/-- Evaluation of the calculator on the reversed-tiers scenario fixture. -/
lemma calcScenarioRev_eval :
    calculateUserIncentive (fun s => s) "u" [acctA] [saleBig] [ruleTieredRev] =
      some calcScenarioRev := by
  have hperm : ([{ revenue_threshold := 1000000, incentive_rate := 10 },
      { revenue_threshold := 0, incentive_rate := 5 }] : List Tier).Perm
      [{ revenue_threshold := 0, incentive_rate := 5 },
       { revenue_threshold := 1000000, incentive_rate := 10 }] :=
    List.Perm.swap _ _ _
  have hsort : sortTiers [{ revenue_threshold := 1000000, incentive_rate := 10 },
      { revenue_threshold := 0, incentive_rate := 5 }] =
      [{ revenue_threshold := 0, incentive_rate := 5 },
       { revenue_threshold := 1000000, incentive_rate := 10 }] := by
    rw [sortTiers_perm_congr _ _ hperm (by norm_num [List.pairwise_cons])]
    exact sortTiers_eq_self _ (by norm_num [List.pairwise_cons])
  norm_num [calculateUserIncentive, userSalesOf, sumPurchases, sumCommission,
    commissionRateOf, ruleMatches, qualifyingAccountIds, qualifyingRevenueOf,
    hsort, tierWalk, tierWalkAux, calcProgress, acctA, saleBig,
    ruleTieredRev, calcScenarioRev, min_def]

/-- C10 counterexample: supplying the scenario rule's tiers in reverse order
(pairwise-distinct thresholds) changes the returned calculation — the
embedded `applicable_rule` keeps the supplied tier order — so the outputs
are not identical. -/
theorem c10_order_counterexample :
    calculateUserIncentive (fun s => s) "u" [acctA] [saleBig] [ruleTiered] ≠
        calculateUserIncentive (fun s => s) "u" [acctA] [saleBig]
          [ruleTieredRev] ∧
      ruleTieredRev.tiers.Perm ruleTiered.tiers ∧
      ruleTieredRev.is_active = ruleTiered.is_active ∧
      ruleTieredRev.commission_rate_min = ruleTiered.commission_rate_min ∧
      ruleTieredRev.commission_rate_max = ruleTiered.commission_rate_max ∧
      ruleTieredRev.min_commission_threshold =
        ruleTiered.min_commission_threshold ∧
      ruleTieredRev.base_revenue_threshold =
        ruleTiered.base_revenue_threshold ∧
      ruleTiered.tiers.Pairwise
        (fun a b => a.revenue_threshold ≠ b.revenue_threshold) := by
  refine ⟨?_, List.Perm.swap _ _ _, rfl, rfl, rfl, rfl, rfl,
    by norm_num [List.pairwise_cons, ruleTiered]⟩
  rw [calcScenario_eval, calcScenarioRev_eval]
  intro h
  have h2 := congrArg (fun o => (Option.map (·.applicable_rule) o)) h
  norm_num [calcScenario, calcScenarioRev, ruleTiered, ruleTieredRev] at h2

lemma calcProgress_congr (r r1 : IncentiveRule)
    (hbase : r1.base_revenue_threshold = r.base_revenue_threshold)
    (q : ℚ) (cur nt : Option Tier) :
    calcProgress r1 q cur nt = calcProgress r q cur nt := by
  cases nt with
  | none => rfl
  | some t =>
    cases cur with
    | none => simp [calcProgress, hbase]
    | some ct => simp [calcProgress, hbase]

/-- C10 amended: permuting the tiers of one rule (pairwise-distinct
thresholds, all other rule fields equal) leaves the returned calculation
identical except for the embedded `applicable_rule`, whose tiers keep the
supplied order; the applicable rules still agree after sorting their tiers. -/
theorem c10_tier_order_insensitive (g : String → String) (uid : String)
    (accs : List Account) (sd : List SalesData)
    (R1 R2 : List IncentiveRule) (r r1 : IncentiveRule)
    (hact : r1.is_active = r.is_active)
    (hmin : r1.commission_rate_min = r.commission_rate_min)
    (hmax : r1.commission_rate_max = r.commission_rate_max)
    (hthr : r1.min_commission_threshold = r.min_commission_threshold)
    (hbase : r1.base_revenue_threshold = r.base_revenue_threshold)
    (hp : r1.tiers.Perm r.tiers)
    (hd : r.tiers.Pairwise fun a b => a.revenue_threshold ≠ b.revenue_threshold) :
    (calculateUserIncentive g uid accs sd (R1 ++ r :: R2)).map
        (fun c => { c with applicable_rule := none }) =
      (calculateUserIncentive g uid accs sd (R1 ++ r1 :: R2)).map
        (fun c => { c with applicable_rule := none }) ∧
    (calculateUserIncentive g uid accs sd (R1 ++ r :: R2)).map
        (fun c => c.applicable_rule.map fun q => sortTiers q.tiers) =
      (calculateUserIncentive g uid accs sd (R1 ++ r1 :: R2)).map
        (fun c => c.applicable_rule.map fun q => sortTiers q.tiers) := by
  have hst : sortTiers r1.tiers = sortTiers r.tiers :=
    sortTiers_perm_congr _ _ hp
      ((List.Perm.pairwise_iff (fun hab => Ne.symm hab) hp).mpr hd)
  have hqa : qualifyingAccountIds accs (userSalesOf accs sd) r1 =
      qualifyingAccountIds accs (userSalesOf accs sd) r := by
    unfold qualifyingAccountIds
    rw [hthr]
  have hrm : ∀ rate, ruleMatches rate r1 = ruleMatches rate r := by
    intro rate
    unfold ruleMatches
    rw [hmin, hmax]
  by_cases haccs : accs = []
  · have h0 : accs.length = 0 := by simp [haccs]
    constructor <;> simp [calculateUserIncentive, h0]
  · cases hra : r.is_active with
    | false =>
      have hr1a : r1.is_active = false := by rw [hact, hra]
      have hfil : (R1 ++ r1 :: R2).filter (·.is_active) =
          (R1 ++ r :: R2).filter (·.is_active) := by
        simp [List.filter_append, List.filter_cons, hra, hr1a]
      have he : calculateUserIncentive g uid accs sd (R1 ++ r1 :: R2) =
          calculateUserIncentive g uid accs sd (R1 ++ r :: R2) := by
        simp only [calculateUserIncentive]
        rw [hfil]
      rw [he]
      exact ⟨rfl, rfl⟩
    | true =>
      have hr1a : r1.is_active = true := by rw [hact, hra]
      have hfil1 : (R1 ++ r :: R2).filter (·.is_active) =
          R1.filter (·.is_active) ++ r :: R2.filter (·.is_active) := by
        simp [List.filter_append, List.filter_cons, hra]
      have hfil2 : (R1 ++ r1 :: R2).filter (·.is_active) =
          R1.filter (·.is_active) ++ r1 :: R2.filter (·.is_active) := by
        simp [List.filter_append, List.filter_cons, hr1a]
      have hne1 : (R1 ++ r :: R2).filter (·.is_active) ≠ [] := by
        rw [hfil1]
        simp
      have hne2 : (R1 ++ r1 :: R2).filter (·.is_active) ≠ [] := by
        rw [hfil2]
        simp
      cases hA : (R1.filter (·.is_active)).find?
          (ruleMatches (commissionRateOf (sumPurchases (userSalesOf accs sd))
            (sumCommission (userSalesOf accs sd)))) with
      | some q =>
        have hf1 : ((R1 ++ r :: R2).filter (·.is_active)).find?
            (ruleMatches (commissionRateOf (sumPurchases (userSalesOf accs sd))
              (sumCommission (userSalesOf accs sd)))) = some q := by
          rw [hfil1, List.find?_append, hA]
          rfl
        have hf2 : ((R1 ++ r1 :: R2).filter (·.is_active)).find?
            (ruleMatches (commissionRateOf (sumPurchases (userSalesOf accs sd))
              (sumCommission (userSalesOf accs sd)))) = some q := by
          rw [hfil2, List.find?_append, hA]
          rfl
        rw [calculateUserIncentive_of_find_some g uid accs sd _ q haccs hne1 hf1,
          calculateUserIncentive_of_find_some g uid accs sd _ q haccs hne2 hf2]
        exact ⟨rfl, rfl⟩
      | none =>
        cases hm : ruleMatches (commissionRateOf
            (sumPurchases (userSalesOf accs sd))
            (sumCommission (userSalesOf accs sd))) r with
        | true =>
          have hm1 : ruleMatches (commissionRateOf
              (sumPurchases (userSalesOf accs sd))
              (sumCommission (userSalesOf accs sd))) r1 = true := by
            rw [hrm]
            exact hm
          have hf1 : ((R1 ++ r :: R2).filter (·.is_active)).find?
              (ruleMatches (commissionRateOf (sumPurchases (userSalesOf accs sd))
                (sumCommission (userSalesOf accs sd)))) = some r := by
            rw [hfil1, List.find?_append, hA]
            simp [List.find?_cons, hm]
          have hf2 : ((R1 ++ r1 :: R2).filter (·.is_active)).find?
              (ruleMatches (commissionRateOf (sumPurchases (userSalesOf accs sd))
                (sumCommission (userSalesOf accs sd)))) = some r1 := by
            rw [hfil2, List.find?_append, hA]
            simp [List.find?_cons, hm1]
          rw [calculateUserIncentive_of_find_some g uid accs sd _ r haccs hne1 hf1,
            calculateUserIncentive_of_find_some g uid accs sd _ r1 haccs hne2 hf2]
          constructor
          · simp [hqa, hst, calcProgress_congr r r1 hbase]
          · simp [hst]
        | false =>
          have hm1 : ruleMatches (commissionRateOf
              (sumPurchases (userSalesOf accs sd))
              (sumCommission (userSalesOf accs sd))) r1 = false := by
            rw [hrm]
            exact hm
          have hf1t : ((R1 ++ r :: R2).filter (·.is_active)).find?
              (ruleMatches (commissionRateOf (sumPurchases (userSalesOf accs sd))
                (sumCommission (userSalesOf accs sd)))) =
              (R2.filter (·.is_active)).find?
                (ruleMatches (commissionRateOf (sumPurchases (userSalesOf accs sd))
                  (sumCommission (userSalesOf accs sd)))) := by
            rw [hfil1, List.find?_append, hA]
            simp [List.find?_cons, hm]
          have hf2t : ((R1 ++ r1 :: R2).filter (·.is_active)).find?
              (ruleMatches (commissionRateOf (sumPurchases (userSalesOf accs sd))
                (sumCommission (userSalesOf accs sd)))) =
              (R2.filter (·.is_active)).find?
                (ruleMatches (commissionRateOf (sumPurchases (userSalesOf accs sd))
                  (sumCommission (userSalesOf accs sd)))) := by
            rw [hfil2, List.find?_append, hA]
            simp [List.find?_cons, hm1]
          cases hB : (R2.filter (·.is_active)).find?
              (ruleMatches (commissionRateOf (sumPurchases (userSalesOf accs sd))
                (sumCommission (userSalesOf accs sd)))) with
          | some q =>
            rw [calculateUserIncentive_of_find_some g uid accs sd _ q haccs hne1
                (hf1t.trans hB),
              calculateUserIncentive_of_find_some g uid accs sd _ q haccs hne2
                (hf2t.trans hB)]
            exact ⟨rfl, rfl⟩
          | none =>
            rw [calculateUserIncentive_of_find_none g uid accs sd _ haccs hne1
                (hf1t.trans hB),
              calculateUserIncentive_of_find_none g uid accs sd _ haccs hne2
                (hf2t.trans hB)]
            exact ⟨rfl, rfl⟩

/-- Witness for C10 (amended) on the scenario rule and its reversed tiers. -/
theorem c10_tier_order_insensitive_witness :
    ruleTieredRev.is_active = ruleTiered.is_active ∧
    ruleTieredRev.commission_rate_min = ruleTiered.commission_rate_min ∧
    ruleTieredRev.commission_rate_max = ruleTiered.commission_rate_max ∧
    ruleTieredRev.min_commission_threshold = ruleTiered.min_commission_threshold ∧
    ruleTieredRev.base_revenue_threshold = ruleTiered.base_revenue_threshold ∧
    ruleTieredRev.tiers.Perm ruleTiered.tiers ∧
    ruleTiered.tiers.Pairwise
      (fun a b => a.revenue_threshold ≠ b.revenue_threshold) ∧
    ((calculateUserIncentive (fun s => s) "u" [acctA] [saleBig]
          (([] : List IncentiveRule) ++ ruleTiered :: ([] : List IncentiveRule))).map
        (fun c => { c with applicable_rule := none }) =
      (calculateUserIncentive (fun s => s) "u" [acctA] [saleBig]
          (([] : List IncentiveRule) ++ ruleTieredRev :: ([] : List IncentiveRule))).map
        (fun c => { c with applicable_rule := none }) ∧
    (calculateUserIncentive (fun s => s) "u" [acctA] [saleBig]
          (([] : List IncentiveRule) ++ ruleTiered :: ([] : List IncentiveRule))).map
        (fun c => c.applicable_rule.map fun q => sortTiers q.tiers) =
      (calculateUserIncentive (fun s => s) "u" [acctA] [saleBig]
          (([] : List IncentiveRule) ++ ruleTieredRev :: ([] : List IncentiveRule))).map
        (fun c => c.applicable_rule.map fun q => sortTiers q.tiers)) :=
  ⟨rfl, rfl, rfl, rfl, rfl, List.Perm.swap _ _ _,
    by norm_num [List.pairwise_cons, ruleTiered],
    c10_tier_order_insensitive (fun s => s) "u" [acctA] [saleBig] [] []
      ruleTiered ruleTieredRev rfl rfl rfl rfl rfl (List.Perm.swap _ _ _)
      (by norm_num [List.pairwise_cons, ruleTiered])⟩

end Dsh15
